import Mathlib

/-!
Verification development for the grammar-practice Flask backend
(`main.py`).  The file shallowly embeds the pieces of the program the
claims are about:

* a model of Python's `json.loads` restricted to the JSON grammar the
  standard library accepts (including the `NaN` / `Infinity` extensions),
* the raw-reply parsing performed by `check_answer` (lines 236-245) and by
  `check_preposition` (lines 333-373), including fence stripping, the
  brace-span regex, the line-based key regexes and `_sanitize`,
* the request-level control flow of `check_answer`, `check_preposition`
  and `health_check`, with the two outbound HTTP calls abstracted as
  oracle inputs and recorded in a call trace.

Modelling notes, applying throughout:
* Python strings are Lean `String`s; machine-level details of `float`
  formatting are approximated by keeping the numeric lexeme (no claim
  exercises non-integer numbers, and every concrete input used below is
  exact under the model).
* `str.strip()` / regex `\s` are modelled on the ASCII whitespace set.
-/

namespace InterviewApp

/-- Values produced by `json.loads` in `main.py`.  Integer literals are
kept exactly as Lean `Int`s; non-integer numeric literals (and the
`NaN`/`Infinity` extensions) keep a rendering of their lexeme.  Objects
are stored as insertion dictionaries: keys are unique, later duplicate
keys overwrite the value in place (CPython `dict` semantics). -/
inductive Json where
  | null
  | bool (b : Bool)
  | num (n : Int)
  | numF (lx : String)
  | str (s : String)
  | arr (elems : List Json)
  | obj (entries : List (String × Json))

/-- JSON inter-token whitespace accepted by Python's `json` module. -/
def isJsonWs (c : Char) : Bool :=
  c == ' ' || c == '\t' || c == '\n' || c == '\r'

/-- ASCII whitespace, the set relevant to `str.strip()` and regex `\s`
on the inputs this development evaluates. -/
def isPyWs (c : Char) : Bool :=
  c == ' ' || c == '\t' || c == '\n' || c == '\r' || c == '\x0b' || c == '\x0c'

def hexDigitVal (c : Char) : Option Nat :=
  if '0' ≤ c ∧ c ≤ '9' then some (c.toNat - '0'.toNat)
  else if 'a' ≤ c ∧ c ≤ 'f' then some (c.toNat - 'a'.toNat + 10)
  else if 'A' ≤ c ∧ c ≤ 'F' then some (c.toNat - 'A'.toNat + 10)
  else none

def parseHex4 : List Char → Option (Nat × List Char)
  | a :: b :: c :: d :: rest => do
      let x ← hexDigitVal a
      let y ← hexDigitVal b
      let z ← hexDigitVal c
      let w ← hexDigitVal d
      pure (((x * 16 + y) * 16 + z) * 16 + w, rest)
  | _ => none

/-- The single-character JSON string escapes (`\"`, `\\`, `\/`, `\b`,
`\f`, `\n`, `\r`, `\t`); anything else is rejected, as in strict-mode
`json.loads`. -/
def escChar (c : Char) : Option Char :=
  if c = '"' then some '"'
  else if c = '\\' then some '\\'
  else if c = '/' then some '/'
  else if c = 'b' then some (Char.ofNat 8)
  else if c = 'f' then some (Char.ofNat 12)
  else if c = 'n' then some '\n'
  else if c = 'r' then some '\r'
  else if c = 't' then some '\t'
  else none

/-- Body of a JSON string literal, after the opening quote.  Surrogate
pairs in `\uXXXX` escapes are combined; a lone surrogate (which CPython
would keep as a surrogate code unit) is approximated by `Char.ofNat`.
Raw control characters are rejected (strict mode). -/
def parseJStrAux : Nat → List Char → List Char → Option (String × List Char)
  | 0, _, _ => none
  | _ + 1, _, [] => none
  | fuel + 1, acc, c :: rest =>
    if c = '"' then some (String.mk acc.reverse, rest)
    else if c = '\\' then
      match rest with
      | [] => none
      | e :: rest2 =>
        if e = 'u' then
          match parseHex4 rest2 with
          | none => none
          | some (n, rest3) =>
            if 0xD800 ≤ n ∧ n ≤ 0xDBFF then
              match rest3 with
              | '\\' :: 'u' :: rest4 =>
                match parseHex4 rest4 with
                | some (m, rest5) =>
                  if 0xDC00 ≤ m ∧ m ≤ 0xDFFF then
                    parseJStrAux fuel
                      (Char.ofNat (0x10000 + (n - 0xD800) * 0x400 + (m - 0xDC00)) :: acc) rest5
                  else parseJStrAux fuel (Char.ofNat n :: acc) rest3
                | none => parseJStrAux fuel (Char.ofNat n :: acc) rest3
              | _ => parseJStrAux fuel (Char.ofNat n :: acc) rest3
            else parseJStrAux fuel (Char.ofNat n :: acc) rest3
        else
          match escChar e with
          | some ch => parseJStrAux fuel (ch :: acc) rest2
          | none => none
    else if c.toNat < 0x20 then none
    else parseJStrAux fuel (c :: acc) rest

def isDigit (c : Char) : Bool := '0' ≤ c && c ≤ '9'

def takeDigits (cs : List Char) : List Char × List Char :=
  (cs.takeWhile isDigit, cs.dropWhile isDigit)

def digitsToNat (ds : List Char) : Nat :=
  ds.foldl (fun acc c => acc * 10 + (c.toNat - '0'.toNat)) 0

/-- Finish scanning a numeric literal after its integer part, mirroring
the `json` module's number regex
`(-?(?:0|[1-9]\d*))(\.\d+)?([eE][-+]?\d+)?`: the fraction and exponent
groups are optional and simply not consumed when incomplete. -/
def finishNum (neg : Bool) (intDs : List Char) (rest : List Char) :
    Option (Json × List Char) :=
  let fr := match rest with
    | '.' :: r2 =>
      let t := takeDigits r2
      if t.1.isEmpty then ([], rest) else (t.1, t.2)
    | _ => ([], rest)
  let fracDs := fr.1
  let restF := fr.2
  let ex := match restF with
    | e :: r2 =>
      if e = 'e' ∨ e = 'E' then
        let sg := match r2 with
          | '+' :: t => (['+'], t)
          | '-' :: t => (['-'], t)
          | _ => (([] : List Char), r2)
        let t := takeDigits sg.2
        if t.1.isEmpty then (([] : List Char), restF, false)
        else ([e] ++ sg.1 ++ t.1, t.2, true)
      else (([] : List Char), restF, false)
    | [] => (([] : List Char), restF, false)
  let expDs := ex.1
  let restE := ex.2.1
  let hasExp := ex.2.2
  if fracDs.isEmpty ∧ ¬ hasExp then
    some (Json.num (if neg then -(digitsToNat intDs : Int) else (digitsToNat intDs : Int)), restF)
  else
    some (Json.numF (String.mk ((if neg then ['-'] else []) ++ intDs ++
      (if fracDs.isEmpty then [] else '.' :: fracDs) ++ expDs)), restE)

/-- A JSON numeric literal (sign already part of the input). -/
def parseNumber (cs : List Char) : Option (Json × List Char) :=
  let sp := match cs with
    | '-' :: t => (true, t)
    | _ => (false, cs)
  let neg := sp.1
  match sp.2 with
  | '0' :: rest => finishNum neg ['0'] rest
  | c :: _ =>
    if isDigit c then
      let t := takeDigits sp.2
      finishNum neg t.1 t.2
    else none
  | [] => none

def stripPre (pre : List Char) (cs : List Char) : Option (List Char) :=
  if pre.isPrefixOf cs then some (cs.drop pre.length) else none

/-- Dispatcher mode for the single-function recursive-descent JSON
reader (kept as one function, structurally recursive on fuel, so closed
evaluations reduce in the kernel). -/
inductive PMode where
  | value
  | members (acc : List (String × Json))
  | elems (acc : List Json)

/-- CPython `dict` insertion: an existing key keeps its position and has
its value replaced, a new key is appended. -/
def dictInsert (d : List (String × Json)) (k : String) (v : Json) :
    List (String × Json) :=
  if d.any (fun p => p.1 == k) then
    d.map (fun p => if p.1 == k then (k, v) else p)
  else d ++ [(k, v)]

def toDict (kvs : List (String × Json)) : List (String × Json) :=
  kvs.foldl (fun d p => dictInsert d p.1 p.2) []

/-- One step of the recursive-descent reader for `json.loads`.
`PMode.value` expects a value; `PMode.members` expects a `"key": value`
member (the `\x7b` of the object and any leading empty-object case
having been consumed by the caller); `PMode.elems` expects an array
element. -/
def parseStep : Nat → PMode → List Char → Option (Json × List Char)
  | 0, _, _ => none
  | fuel + 1, PMode.value, cs =>
    let cs := cs.dropWhile isJsonWs
    match cs with
    | [] => none
    | '\x7b' :: rest =>
      let r := rest.dropWhile isJsonWs
      match r with
      | '\x7d' :: r2 => some (Json.obj [], r2)
      | _ => parseStep fuel (PMode.members []) r
    | '[' :: rest =>
      let r := rest.dropWhile isJsonWs
      match r with
      | ']' :: r2 => some (Json.arr [], r2)
      | _ => parseStep fuel (PMode.elems []) r
    | '"' :: rest =>
      (parseJStrAux (rest.length + 1) [] rest).map (fun p => (Json.str p.1, p.2))
    | _ =>
      match stripPre ['t', 'r', 'u', 'e'] cs with
      | some r => some (Json.bool true, r)
      | none =>
        match stripPre ['f', 'a', 'l', 's', 'e'] cs with
        | some r => some (Json.bool false, r)
        | none =>
          match stripPre ['n', 'u', 'l', 'l'] cs with
          | some r => some (Json.null, r)
          | none =>
            match stripPre ['N', 'a', 'N'] cs with
            | some r => some (Json.numF "nan", r)
            | none =>
              match stripPre ['I', 'n', 'f', 'i', 'n', 'i', 't', 'y'] cs with
              | some r => some (Json.numF "inf", r)
              | none =>
                match stripPre ['-', 'I', 'n', 'f', 'i', 'n', 'i', 't', 'y'] cs with
                | some r => some (Json.numF "-inf", r)
                | none => parseNumber cs
  | fuel + 1, PMode.members acc, cs =>
    match cs with
    | '"' :: rest =>
      match parseJStrAux (rest.length + 1) [] rest with
      | none => none
      | some (k, r2) =>
        let r3 := r2.dropWhile isJsonWs
        match r3 with
        | ':' :: r4 =>
          match parseStep fuel PMode.value r4 with
          | none => none
          | some (v, r5) =>
            let r6 := r5.dropWhile isJsonWs
            match r6 with
            | ',' :: r7 => parseStep fuel (PMode.members (acc ++ [(k, v)])) (r7.dropWhile isJsonWs)
            | '\x7d' :: r7 => some (Json.obj (toDict (acc ++ [(k, v)])), r7)
            | _ => none
        | _ => none
    | _ => none
  | fuel + 1, PMode.elems acc, cs =>
    match parseStep fuel PMode.value cs with
    | none => none
    | some (v, r) =>
      let r2 := r.dropWhile isJsonWs
      match r2 with
      | ',' :: r3 => parseStep fuel (PMode.elems (acc ++ [v])) r3
      | ']' :: r3 => some (Json.arr (acc ++ [v]), r3)
      | _ => none

/-- Model of Python's `json.loads`: parse one value, then require only
whitespace to remain (otherwise `json.loads` raises "Extra data"). -/
def jsonLoads (s : String) : Option Json :=
  match parseStep (2 * s.length + 8) PMode.value s.toList with
  | some (v, rest) => if (rest.dropWhile isJsonWs).isEmpty then some v else none
  | none => none

def hexChar (n : Nat) : Char :=
  if n < 10 then Char.ofNat ('0'.toNat + n) else Char.ofNat ('a'.toNat + n - 10)

/-- One character of Python's `repr` of a string, given the chosen quote
character.  Non-printable handling is the ASCII part of CPython's rule
(no input below contains non-ASCII non-printables). -/
def pyEscC (q : Char) (c : Char) : String :=
  if c = '\\' then "\\\\"
  else if c = q then String.mk ['\\', q]
  else if c = '\n' then "\\n"
  else if c = '\r' then "\\r"
  else if c = '\t' then "\\t"
  else if c.toNat < 0x20 ∨ c.toNat = 0x7f then
    "\\x" ++ String.mk [hexChar (c.toNat / 16), hexChar (c.toNat % 16)]
  else String.mk [c]

/-- Python `repr` of a string: single quotes, switching to double quotes
when the text contains a single quote but no double quote. -/
def pyReprStr (s : String) : String :=
  let q : Char := if s.toList.contains '\x27' ∧ ¬ s.toList.contains '"' then '"' else '\x27'
  String.mk [q] ++ s.toList.foldl (fun acc c => acc ++ pyEscC q c) "" ++ String.mk [q]

mutual

/-- Python `repr` of a parsed JSON value (which is how `str` renders the
elements of containers). -/
def pyRepr : Json → String
  | .null => "None"
  | .bool true => "True"
  | .bool false => "False"
  | .num n => toString n
  | .numF lx => lx
  | .str s => pyReprStr s
  | .arr xs => "[" ++ pyReprList xs ++ "]"
  | .obj kvs => "\x7b" ++ pyReprObj kvs ++ "\x7d"

def pyReprList : List Json → String
  | [] => ""
  | [x] => pyRepr x
  | x :: y :: xs => pyRepr x ++ ", " ++ pyReprList (y :: xs)

def pyReprObj : List (String × Json) → String
  | [] => ""
  | [(k, v)] => pyReprStr k ++ ": " ++ pyRepr v
  | (k, v) :: p :: kvs => pyReprStr k ++ ": " ++ pyRepr v ++ ", " ++ pyReprObj (p :: kvs)

end

/-- Python `str()` of a parsed JSON value. -/
def pyStr (v : Json) : String :=
  match v with
  | .str s => s
  | _ => pyRepr v

/-- Python truthiness of a parsed JSON value.  For non-integer numeric
literals the model calls a literal falsy exactly when every digit of
its mantissa is zero — so `0e10` (which is `0.0`) is falsy; the only
remaining approximation is non-zero literals that underflow to `0.0`,
which no claim exercises. -/
def pyTruthy : Json → Bool
  | .null => false
  | .bool b => b
  | .num n => n != 0
  | .numF lx =>
    if lx = "nan" ∨ lx = "inf" ∨ lx = "-inf" then true
    else ((lx.toList.takeWhile (fun c => !(c == 'e' || c == 'E'))).any
      (fun c => isDigit c && c != '0'))
  | .str s => s != ""
  | .arr xs => !xs.isEmpty
  | .obj kvs => !kvs.isEmpty

/-- `d.get(k)` on a Python dict modelled as an association list; for
lists built by `toDict` keys are unique, and for raw request bodies the
reverse-first lookup gives the later-duplicate-wins semantics of a
parsed JSON body. -/
def dictGet (kvs : List (String × Json)) (k : String) : Option Json :=
  (kvs.reverse.find? (fun p => p.1 == k)).map (fun p => p.2)

def truthyOpt (o : Option Json) : Bool :=
  match o with
  | some v => pyTruthy v
  | none => false

/-- `s.strip()` (ASCII whitespace set). -/
def pyStrip (s : String) : String :=
  String.mk (((s.toList.dropWhile isPyWs).reverse.dropWhile isPyWs).reverse)

/-- Characters allowed in the fence-language group of
`re.sub(r'^```[a-zA-Z0-9_\-]*\n', '', cleaned)`. -/
def fenceLangChar (c : Char) : Bool :=
  c.isAlpha || isDigit c || c == '_' || c == '-'

/-- `re.sub(r'^```[a-zA-Z0-9_\-]*\n', '', s)` (main.py line 340): with
the `^` anchor and no MULTILINE flag this removes at most one match, at
the very start of the string. -/
def removeLeadFence (s : String) : String :=
  let cs := s.toList
  if ("```".toList).isPrefixOf cs then
    let rest := cs.drop 3
    let lang := rest.takeWhile fenceLangChar
    match rest.drop lang.length with
    | '\n' :: tail => String.mk tail
    | _ => s
  else s

/-- `re.sub(r'\n```\s*$', '', s)` (main.py line 341): the end anchor
forces any match to be a suffix of the form `"\n```" ++ whitespace`
(`$` may also sit before a final newline, which the whitespace run
absorbs), so the substitution removes that suffix when present. -/
def removeTrailFence (s : String) : String :=
  let revNoWs := s.toList.reverse.dropWhile isPyWs
  if ("\n```".toList.reverse).isPrefixOf revNoWs then
    String.mk ((revNoWs.drop 4).reverse)
  else s

/-- Lines 338-341 of main.py: code fences are stripped only when the
(already `strip()`ed) text starts with three backticks. -/
def stripFences (cleaned : String) : String :=
  if ("```".toList).isPrefixOf cleaned.toList then
    removeTrailFence (removeLeadFence cleaned)
  else cleaned

/-- `re.search(r'\{[\s\S]*\}', s)` (main.py line 349): the leftmost
match starts at the first `\x7b` and the greedy body runs to the last
`\x7d`; a match exists exactly when some `\x7b` precedes some `\x7d`. -/
def firstBraceSpan (s : String) : Option String :=
  let cs := s.toList
  match cs.findIdx? (fun c => c == '\x7b'), cs.reverse.findIdx? (fun c => c == '\x7d') with
  | some i, some rj =>
    let j := cs.length - 1 - rj
    if i < j then some (String.mk ((cs.drop i).take (j - i + 1))) else none
  | _, _ => none

def sepChar (c : Char) : Bool := c == ':' || c == '=' || c == '-'

/-- Case-insensitive literal match (regex `IGNORECASE`, ASCII inputs). -/
def matchCI : List Char → List Char → Option (List Char)
  | [], cs => some cs
  | _ :: _, [] => none
  | p :: ps, c :: cs => if p.toLower == c.toLower then matchCI ps cs else none

/-- The capture group `([^\n"]+)`: a maximal nonempty run of characters
other than newline and double quote (the optional trailing `"?` never
affects the capture). -/
def captureVal (cs : List Char) : Option String :=
  let run := cs.takeWhile (fun c => !(c == '\n' || c == '"'))
  if run.isEmpty then none else some (String.mk run)

/-- Backtracking into the second greedy `\s*` of the key regexes: when
the match attempt after the full whitespace run fails, Python's engine
retries with ever shorter runs.  Each shorter attempt puts a whitespace
character at the capture position; every whitespace character except
newline belongs to the capture class `[^\n"]`, so the first (rightmost)
non-newline whitespace character of the run yields the match.  The
first argument is the reversed whitespace run, the second the input
that follows the character under consideration. -/
def wsBacktrack : List Char → List Char → Option String
  | [], _ => none
  | c :: wrev, suffix =>
    if c = '\n' then wsBacktrack wrev (c :: suffix)
    else captureVal (c :: suffix)

/-- `\s*"?([^\n"]+)"?` after the separator.  The engine first tries the
maximal whitespace run; there the optional quote is consumed when
present (if the capture then fails, the no-quote alternative also fails
because the next character is the quote itself).  On failure it
backtracks into the greedy `\s*` (`wsBacktrack`). -/
def afterSep (cs2 : List Char) : Option String :=
  match (match cs2.dropWhile isPyWs with
         | '"' :: r2 => captureVal r2
         | rest => captureVal rest) with
  | some v => some v
  | none => wsBacktrack (cs2.takeWhile isPyWs).reverse (cs2.dropWhile isPyWs)

/-- `\s*[:=-]\s*"?([^\n"]+)"?` after the key has been matched.  The
first greedy `\s*` needs no backtracking: whitespace is disjoint from
the separator class, so the separator can only be the first
non-whitespace character. -/
def afterKey (cs : List Char) : Option String :=
  match cs.dropWhile isPyWs with
  | c :: cs2 => if sepChar c then afterSep cs2 else none
  | [] => none

/-- Matching `feedback\s*[:=-]\s*"?([^\n"]+)"?` at the head of the
input. -/
def matchFeedbackAt (cs : List Char) : Option String :=
  (matchCI "feedback".toList cs).bind afterKey

/-- Matching `next_?question\s*[:=-]\s*"?([^\n"]+)"?` at the head of the
input.  When the optional underscore is present, the no-underscore
alternative of `_?` cannot match (the next character is the underscore),
so no further backtracking arises. -/
def matchNextQAt (cs : List Char) : Option String :=
  (matchCI "next".toList cs).bind (fun r =>
    match r with
    | '_' :: r2 => (matchCI "question".toList r2).bind afterKey
    | _ => (matchCI "question".toList r).bind afterKey)

/-- `re.search`: the match attempt at the leftmost succeeding start
position wins. -/
def searchPos (p : List Char → Option String) : List Char → Option String
  | [] => p []
  | c :: cs =>
    match p (c :: cs) with
    | some v => some v
    | none => searchPos p cs

def reSearchFeedback (s : String) : Option String :=
  searchPos matchFeedbackAt s.toList

def reSearchNextQ (s : String) : Option String :=
  searchPos matchNextQAt s.toList

/-- `_sanitize` (main.py lines 367-371): strip whitespace, then remove
one matching pair of surrounding double or single quotes (on a
one-character quote string Python's `s[1:-1]` yields the empty
string, as here). -/
def pySanitize (s : String) : String :=
  let t := pyStrip s
  let cs := t.toList
  if (cs.head? = some '"' ∧ cs.getLast? = some '"') ∨
      (cs.head? = some '\x27' ∧ cs.getLast? = some '\x27') then
    String.mk ((cs.drop 1).dropLast)
  else t

/-- The `json.loads` + `parsed.get(...)` + `str(...)` block used at
main.py lines 344-346 and 352-354.  `none` covers both a `loads` failure
and a successful parse to a non-dict (whose `.get` raises
`AttributeError`); in `check_preposition` both call sites catch every
exception, so the two are indistinguishable there. -/
def loadPair (s : String) : Option (String × String) :=
  match jsonLoads s with
  | some (Json.obj kvs) =>
    some (pyStr ((dictGet kvs "feedback").getD (Json.str "")),
      pyStr ((dictGet kvs "next_question").getD (Json.str "")))
  | _ => none

/-- The parsing cascade of `check_preposition` (main.py lines 333-364),
before `_sanitize` is applied. -/
def parsePrepRaw (text : String) : String × String :=
  let cleaned := stripFences (pyStrip text)
  match loadPair cleaned with
  | some p => p
  | none =>
    match firstBraceSpan cleaned with
    | some sub =>
      match loadPair sub with
      | some p => p
      | none => (cleaned, "")
    | none =>
      let fb := reSearchFeedback cleaned
      let nq := reSearchNextQ cleaned
      let feedback := fb.getD ""
      let next_question := nq.getD ""
      if feedback = "" ∧ next_question = "" then (cleaned, next_question)
      else (feedback, next_question)

/-- The full reply parsing of `check_preposition` (lines 333-373):
the cascade followed by `_sanitize` on both extracted strings. -/
def parsePreposition (text : String) : String × String :=
  let p := parsePrepRaw text
  (pySanitize p.1, pySanitize p.2)

/-- The reply parsing of `check_answer` (main.py lines 236-245): a
single direct `json.loads` whose `except` clause catches only
`json.JSONDecodeError`.  A reply that parses to a non-dict makes
`claude_data.get` raise `AttributeError`, which escapes this block
(`Except.error`), to be caught by the endpoint's outer handler. -/
def parseAnswer (response_text : String) : Except Unit (Json × Json) :=
  match jsonLoads response_text with
  | some (Json.obj kvs) =>
    Except.ok ((dictGet kvs "feedback").getD (Json.str ""),
      (dictGet kvs "next_question").getD (Json.str ""))
  | some _ => Except.error ()
  | none => Except.ok (Json.str response_text, Json.str "")

/-- Python `a += s` for `s` a string: works on strings (concatenation)
and lists (extend by the one-character strings of `s`); every other
left operand raises `TypeError` (`none`). -/
def pyIAdd (a : Json) (s : String) : Option Json :=
  match a with
  | .str f => some (.str (f ++ s))
  | .arr xs => some (.arr (xs ++ s.toList.map (fun c => Json.str (String.mk [c]))))
  | _ => none

/-- Lines 250-253 of `check_answer`: build `combined_text` from the two
(arbitrary Python) values the parse produced, giving
`(text, next_question, combined_text)`.  `none` is the `TypeError`
raised by `combined_text += ...` on a non-string non-list `feedback`
when `next_question` is truthy.  For a list `feedback`, `+=` extends
the very object `feedback` is bound to, so the response's `text` field
aliases the extended list. -/
def assembleAnswer (feedback next_question : Json) : Option (Json × Json × Json) :=
  if pyTruthy next_question then
    match pyIAdd feedback (". Next question: " ++ pyStr next_question) with
    | some ct =>
      some ((match feedback with | Json.arr _ => ct | _ => feedback), next_question, ct)
    | none => none
  else some (feedback, next_question, feedback)

/-- Process configuration: the two credentials read from the
environment at startup (`CLAUDE_API_KEY`, `OPENAI_API_KEY`); `none`
models an unset variable. -/
structure Config where
  claude_key : Option String
  openai_key : Option String

/-- Python truthiness of a credential: present and non-empty
(`if not CLAUDE_API_KEY:` etc.). -/
def keyOk (k : Option String) : Bool :=
  match k with
  | some s => s != ""
  | none => false

/-- The outbound network calls a grading request can make, in order. -/
inductive ExtCall where
  | gradingCall
  | speechCall

/-- An HTTP response: status code and JSON-object body. -/
structure HResp where
  status : Nat
  body : List (String × Json)

/-- The grading service's behaviour, as observed by the endpoint:
either `requests.post` raises (`exc`, message abstracted), or it returns
a status and raw body text together with, for the 200 path, the reply
text the endpoint extracts from `content[0]['text']` (`none` when that
extraction finds nothing truthy, which the code reports as
"No response text from Claude"). -/
inductive GradingOutcome where
  | exc (msg : String)
  | resp (status : Nat) (body : String) (text : Option String)

/-- `text_to_speech_openai` as observed by a grading endpoint: `some`
base64 audio, or `none` when it raises for any reason (upstream
non-200, network failure); both endpoints catch that and use a null
audio value.  Exception message texts are abstracted throughout. -/
abbrev TtsOutcome := Option String

/-- The `audio_base64` response field: the base64 string on success,
JSON null when synthesis failed. -/
def audioJson (tts : TtsOutcome) : Json :=
  match tts with
  | some a => Json.str a
  | none => Json.null

/-- `POST /api/check_answer` (main.py lines 119-280).  `data` is the
parsed request body (`none` when `request.get_json()` yields `None`);
the second component of the result lists the outbound calls made. -/
def check_answer (cfg : Config) (data : Option (List (String × Json)))
    (grading : GradingOutcome) (tts : TtsOutcome) : HResp × List ExtCall :=
  if keyOk cfg.claude_key = false then
    (⟨503, [("error", .str "Service not configured"),
      ("details", .str "Claude API key not found. Please contact administrator.")]⟩, [])
  else if keyOk cfg.openai_key = false then
    (⟨503, [("error", .str "Service not configured"),
      ("details", .str "OpenAI API key not found. Please contact administrator.")]⟩, [])
  else
    match data with
    | none => (⟨400, [("error", .str "No JSON data provided")]⟩, [])
    | some kvs =>
      if kvs.isEmpty then
        -- `if not data:` is also taken by an empty dict
        (⟨400, [("error", .str "No JSON data provided")]⟩, [])
      else
        let question := dictGet kvs "question"
        let user_answer := dictGet kvs "user_answer"
        if truthyOpt question = false ∨ truthyOpt user_answer = false then
          (⟨400, [("error", .str "Both question and user_answer are required")]⟩, [])
        else
          match grading with
          | .exc msg =>
            (⟨500, [("error", .str "Request failed"), ("details", .str msg)]⟩,
              [ExtCall.gradingCall])
          | .resp st body text =>
            if st ≠ 200 then
              (⟨st, [("error", .str ("Claude API error: " ++ toString st)),
                ("details", .str body)]⟩, [ExtCall.gradingCall])
            else
              match text with
              | none =>
                (⟨500, [("error", .str "No response text from Claude")]⟩,
                  [ExtCall.gradingCall])
              | some response_text =>
                match parseAnswer response_text with
                | Except.error _ =>
                  -- AttributeError escapes to the outer handler
                  (⟨500, [("error", .str "Internal server error"),
                    ("details", .str "AttributeError")]⟩, [ExtCall.gradingCall])
                | Except.ok (feedback, next_question) =>
                  match assembleAnswer feedback next_question with
                  | none =>
                    -- TypeError from `combined_text += ...`
                    (⟨500, [("error", .str "Internal server error"),
                      ("details", .str "TypeError")]⟩, [ExtCall.gradingCall])
                  | some (t, n, ct) =>
                    (⟨200, [("text", t), ("next_question", n), ("combined_text", ct),
                      ("audio_base64", audioJson tts)]⟩,
                      [ExtCall.gradingCall, ExtCall.speechCall])

/-- `(data.get('next_preposition') or '')` (main.py line 292): the value
when truthy, else the empty string. -/
def npValue (kvs : List (String × Json)) : Json :=
  match dictGet kvs "next_preposition" with
  | some v => if pyTruthy v then v else Json.str ""
  | none => Json.str ""

/-- Whether line 292's `(... or '').strip()` succeeds, i.e. whether
`npValue` is a string (a truthy non-string has no `.strip`). -/
def npForm (kvs : List (String × Json)) : Bool :=
  match npValue kvs with
  | Json.str _ => true
  | _ => false

/-- `POST /api/check_preposition` (main.py lines 282-387). -/
def check_preposition (cfg : Config) (data : Option (List (String × Json)))
    (grading : GradingOutcome) (tts : TtsOutcome) : HResp × List ExtCall :=
  if (keyOk cfg.claude_key && keyOk cfg.openai_key) = false then
    (⟨503, [("error", .str "Service not configured")]⟩, [])
  else
    let kvs := data.getD []  -- `request.get_json() or \x7b\x7d`
    let question := dictGet kvs "question"
    let user_answer := dictGet kvs "user_answer"
    match npValue kvs with
    | Json.str _ =>
      if truthyOpt question = false ∨ truthyOpt user_answer = false then
        (⟨400, [("error", .str "Both question and user_answer are required")]⟩, [])
      else
        match grading with
        | .exc msg =>
          (⟨500, [("error", .str "Internal server error"), ("details", .str msg)]⟩,
            [ExtCall.gradingCall])
        | .resp st body text =>
          if st ≠ 200 then
            (⟨st, [("error", .str "Claude API error"), ("details", .str body)]⟩,
              [ExtCall.gradingCall])
          else
            match text with
            | none =>
              (⟨500, [("error", .str "No response text from Claude")]⟩,
                [ExtCall.gradingCall])
            | some t =>
              let p := parsePreposition t
              let feedback := p.1
              let next_question := p.2
              -- `feedback + (f". Next question: {nq}" if nq else '')`
              let combined_text :=
                if next_question ≠ "" then feedback ++ (". Next question: " ++ next_question)
                else feedback
              (⟨200, [("text", .str feedback), ("next_question", .str next_question),
                ("combined_text", .str combined_text),
                ("audio_base64", audioJson tts)]⟩,
                [ExtCall.gradingCall, ExtCall.speechCall])
    | _ =>
      -- line 292 `.strip()` raises AttributeError before validation runs
      (⟨500, [("error", .str "Internal server error"),
        ("details", .str "AttributeError")]⟩, [])

/-- `GET /health` (main.py lines 389-396). -/
def health_check (cfg : Config) : HResp :=
  ⟨200, [("status", .str "OK"),
    ("message", .str "Grammar app Python backend is running"),
    ("api_configured", .bool (keyOk cfg.claude_key))]⟩

/-! Spec-side definitions: re-statements of the spec's parsing policy in
its own words, used to compare against the code's parsers. -/

/-- Modelled from the spec's words (§4.3 step 3, claim C1): scan for the
balanced `\x7b...\x7d` region, counting depth, starting just after an
opening brace (which the caller passes in `acc` with `depth = 1`). -/
def scanBalanced : List Char → Nat → List Char → Option (List Char)
  | _, _, [] => none
  | acc, depth, c :: rest =>
    if c = '\x7b' then scanBalanced (c :: acc) (depth + 1) rest
    else if c = '\x7d' then
      if depth = 1 then some (c :: acc).reverse
      else scanBalanced (c :: acc) (depth - 1) rest
    else scanBalanced (c :: acc) depth rest

/-- Modelled from the spec's words: "the first balanced `\x7b...\x7d`
substring" — from the first opening brace to its matching close. -/
def firstBalancedBraces (s : String) : Option String :=
  let cs := s.toList
  match cs.findIdx? (fun c => c == '\x7b') with
  | none => none
  | some i =>
    match cs.drop i with
    | c :: rest => (scanBalanced [c] 1 rest).map String.mk
    | [] => none

/-- Modelled from the spec's words (§4.3, claim C1): the ordered
first-match-wins cascade the claim asserts BOTH grading endpoints
apply: strip fences, direct JSON parse, JSON parse of the first
balanced brace substring, line-based key extraction, whole-text
fallback (taken, per the claim, when no step yields a feedback value;
read here as: when neither key matches). -/
def specCascade (rawText : String) : String × String :=
  let cleaned := stripFences (pyStrip rawText)
  match loadPair cleaned with
  | some p => p
  | none =>
    match (firstBalancedBraces cleaned).bind loadPair with
    | some p => p
    | none =>
      match reSearchFeedback cleaned, reSearchNextQ cleaned with
      | none, none => (cleaned, "")
      | fb, nq => (fb.getD "", nq.getD "")

/-- First parsing strategy of the amended C1 chain: direct JSON parse of
the cleaned text. -/
def stratDirect (cleaned : String) : Option (String × String) :=
  loadPair cleaned

/-- Second strategy: when a first-`\x7b`-to-last-`\x7d` span exists,
JSON-parse it, degrading to (whole cleaned text, "") if that parse
fails. -/
def stratBrace (cleaned : String) : Option (String × String) :=
  (firstBraceSpan cleaned).map (fun sub => (loadPair sub).getD (cleaned, ""))

/-- Third strategy: case-insensitive line-based key extraction (reached
only when no brace span exists). -/
def stratLines (cleaned : String) : Option (String × String) :=
  match reSearchFeedback cleaned, reSearchNextQ cleaned with
  | none, none => none
  | fb, nq => some (fb.getD "", nq.getD "")

/-- The amended description of `check_preposition`'s parser: an ordered
first-match-wins chain of strategies over the fence-stripped text, with
whole-text fallback, then `_sanitize` on both components. -/
def prepDescribed (t : String) : String × String :=
  let cleaned := stripFences (pyStrip t)
  let p := ((stratDirect cleaned).orElse
    (fun _ => (stratBrace cleaned).orElse (fun _ => stratLines cleaned))).getD (cleaned, "")
  (pySanitize p.1, pySanitize p.2)

/-! Concrete inputs used by counterexamples and witnesses. -/

/-- A grading reply: well-formed JSON wrapped in markdown code fences
(the example from the spec's testable properties). -/
def fencedReply : String :=
  "```json\n\x7b\"feedback\":\"OK\",\"next_question\":\"\"\x7d\n```"

/-- A grading reply whose `next_question` is the JSON number `0`
(valid JSON, falsy non-string value). -/
def zeroNqReply : String :=
  "\x7b\"feedback\":\"Hi\",\"next_question\":0\x7d"

/-- A grading reply whose `feedback` value carries symmetric surrounding
double quotes inside the JSON string. -/
def quotedReply : String :=
  "\x7b\"feedback\":\"\\\"Hello\\\"\",\"next_question\":\"\"\x7d"

/-- A grading reply that is strict JSON with a non-empty follow-up
question. -/
def okReply : String :=
  "\x7b\"feedback\":\"Good job!\",\"next_question\":\"Use travel in past simple.\"\x7d"

/-- A grading reply that is plain prose. -/
def proseReply : String := "Great work, keep practicing!"

/-- Both credentials configured. -/
def cfgBoth : Config := ⟨some "sk-ant-key", some "sk-proj-key"⟩

/-- Grading credential configured, speech credential absent. -/
def cfgNoSpeech : Config := ⟨some "sk-ant-key", none⟩

/-- Neither credential configured. -/
def cfgNone : Config := ⟨none, none⟩

/-- A valid request body. -/
def bodyValid : List (String × Json) :=
  [("question", Json.str "Use work in the past simple"),
   ("user_answer", Json.str "I worked")]

/-- A body with `question` missing and a truthy non-string
`next_preposition`. -/
def bodyNoQuestion : List (String × Json) :=
  [("user_answer", Json.str "I worked"), ("next_preposition", Json.num 5)]

/-- A body with `question` present but empty, plus a truthy non-string
`next_preposition`. -/
def bodyEmptyQuestion : List (String × Json) :=
  [("question", Json.str ""), ("user_answer", Json.str "I worked"),
   ("next_preposition", Json.arr [Json.num 1])]

/-- A body with `user_answer` present but empty. -/
def bodyEmptyAnswer : List (String × Json) :=
  [("question", Json.str "Use work in the past simple"), ("user_answer", Json.str "")]

/-- A body with only `user_answer` (so `question` is missing). -/
def bodyOnlyAnswer : List (String × Json) :=
  [("user_answer", Json.str "I worked")]

/-! Supporting lemmas. -/

theorem str_length_append (a b : String) : (a ++ b).length = a.length + b.length := by
  cases a with
  | mk da =>
    cases b with
    | mk db =>
      show (da ++ db).length = da.length + db.length
      exact List.length_append da db

/-- Appending the literal suffix used for `combined_text` always changes
the string. -/
theorem combined_ne_feedback (f n : String) :
    f ++ (". Next question: " ++ n) ≠ f := by
  intro h
  have h2 := congrArg String.length h
  rw [str_length_append, str_length_append] at h2
  have h17 : (". Next question: ").length = 17 := by decide
  omega

/-- A successful capture group is never the empty string. -/
theorem captureVal_ne (cs : List Char) (s : String) (h : captureVal cs = some s) :
    s ≠ "" := by
  unfold captureVal at h
  dsimp only at h
  split at h
  · exact absurd h (by simp)
  · rename_i he
    have hs := Option.some.inj h
    intro h0
    have hd := congrArg String.data (hs.trans h0)
    have hnil : cs.takeWhile (fun c => !(c == '\n' || c == '"')) = [] := by
      simpa using hd
    exact he (by rw [hnil]; rfl)

theorem wsBacktrack_ne (w : List Char) (suffix : List Char) (s : String)
    (h : wsBacktrack w suffix = some s) : s ≠ "" := by
  induction w generalizing suffix with
  | nil => simp [wsBacktrack] at h
  | cons c wrev ih =>
    unfold wsBacktrack at h
    split at h
    · exact ih _ h
    · exact captureVal_ne _ _ h

theorem afterSep_ne (cs2 : List Char) (s : String) (h : afterSep cs2 = some s) :
    s ≠ "" := by
  unfold afterSep at h
  split at h
  · rename_i v hv
    obtain rfl : v = s := Option.some.inj h
    split at hv
    · exact captureVal_ne _ _ hv
    · exact captureVal_ne _ _ hv
  · exact wsBacktrack_ne _ _ _ h

theorem afterKey_ne (cs : List Char) (s : String) (h : afterKey cs = some s) :
    s ≠ "" := by
  unfold afterKey at h
  split at h
  · split at h
    · exact afterSep_ne _ _ h
    · exact absurd h (by simp)
  · exact absurd h (by simp)

theorem matchFeedbackAt_ne (cs : List Char) (s : String)
    (h : matchFeedbackAt cs = some s) : s ≠ "" := by
  unfold matchFeedbackAt at h
  rcases Option.bind_eq_some.mp h with ⟨r, _, hr⟩
  exact afterKey_ne _ _ hr

theorem matchNextQAt_ne (cs : List Char) (s : String)
    (h : matchNextQAt cs = some s) : s ≠ "" := by
  unfold matchNextQAt at h
  rcases Option.bind_eq_some.mp h with ⟨r, _, hr⟩
  split at hr
  · rcases Option.bind_eq_some.mp hr with ⟨r2, _, hr2⟩
    exact afterKey_ne _ _ hr2
  · rcases Option.bind_eq_some.mp hr with ⟨r2, _, hr2⟩
    exact afterKey_ne _ _ hr2

theorem searchPos_ne (p : List Char → Option String)
    (hp : ∀ cs s, p cs = some s → s ≠ "") :
    ∀ cs s, searchPos p cs = some s → s ≠ "" := by
  intro cs
  induction cs with
  | nil => intro s h; exact hp _ _ h
  | cons c cs ih =>
    intro s h
    unfold searchPos at h
    split at h
    · rename_i v hv
      obtain rfl : v = s := Option.some.inj h
      exact hp _ _ hv
    · exact ih _ h

theorem reSearchFeedback_ne (t : String) (s : String)
    (h : reSearchFeedback t = some s) : s ≠ "" :=
  searchPos_ne _ matchFeedbackAt_ne _ _ h

theorem reSearchNextQ_ne (t : String) (s : String)
    (h : reSearchNextQ t = some s) : s ≠ "" :=
  searchPos_ne _ matchNextQAt_ne _ _ h

/-- Pinning the backtracking corner of the line-based extraction: on
these inputs Python's `re.search` backtracks into the greedy `\s*` and
matches a lone-whitespace capture, which `_sanitize` then strips to the
empty string — the whole-text fallback does not fire. -/
theorem lineExtraction_backtracking_examples :
    reSearchFeedback "feedback: \"\"" = some " " ∧
    parsePreposition "feedback: \"\"" = ("", "") ∧
    parsePreposition "feedback= \"\" empty" = ("", "") ∧
    parsePreposition "```\nfeedback: \n```" = ("", "") ∧
    reSearchFeedback "feedback:\"\"" = none :=
  ⟨rfl, rfl, rfl, rfl, rfl⟩

/-- The code's preposition-reply parser is exactly the first-match-wins
strategy chain `prepDescribed`. -/
theorem prep_eq_described (t : String) : parsePreposition t = prepDescribed t := by
  unfold parsePreposition parsePrepRaw prepDescribed
  dsimp only
  cases h1 : loadPair (stripFences (pyStrip t)) with
  | some p => simp [stratDirect, h1, Option.orElse]
  | none =>
    cases h2 : firstBraceSpan (stripFences (pyStrip t)) with
    | some sub =>
      cases h3 : loadPair sub with
      | some p => simp [stratDirect, stratBrace, h1, h2, h3, Option.orElse]
      | none => simp [stratDirect, stratBrace, h1, h2, h3, Option.orElse]
    | none =>
      cases h4 : reSearchFeedback (stripFences (pyStrip t)) with
      | some v =>
        have hv := reSearchFeedback_ne _ _ h4
        cases h5 : reSearchNextQ (stripFences (pyStrip t)) with
        | some w =>
          simp [stratDirect, stratBrace, stratLines, h1, h2, h4, h5, Option.orElse, hv]
        | none =>
          simp [stratDirect, stratBrace, stratLines, h1, h2, h4, h5, Option.orElse, hv]
      | none =>
        cases h5 : reSearchNextQ (stripFences (pyStrip t)) with
        | some w =>
          have hw := reSearchNextQ_ne _ _ h5
          simp [stratDirect, stratBrace, stratLines, h1, h2, h4, h5, Option.orElse, hw]
        | none =>
          simp [stratDirect, stratBrace, stratLines, h1, h2, h4, h5, Option.orElse]

/-- An `assembleAnswer` success whose `text` and `next_question`
components are strings determines `combined_text`: the feedback carries
the separator suffix exactly when the next question is non-empty. -/
theorem assembleAnswer_str_fields (fb nq t n ct : Json) (f nn : String)
    (h : assembleAnswer fb nq = some (t, n, ct))
    (ht : t = Json.str f) (hn : n = Json.str nn) :
    ct = Json.str (if nn ≠ "" then f ++ (". Next question: " ++ nn) else f) := by
  unfold assembleAnswer at h
  split at h
  · rename_i hb
    split at h
    · rename_i ct2 hia
      simp only [Option.some.injEq, Prod.mk.injEq] at h
      obtain ⟨h1, h2, h3⟩ := h
      have hnq : nq = Json.str nn := h2.trans hn
      have hnn : nn ≠ "" := by
        rw [hnq] at hb
        simpa [pyTruthy] using hb
      rw [if_pos hnn]
      cases fb with
      | str f0 =>
        dsimp only at h1
        have hf0 : f0 = f := by
          rw [ht] at h1
          exact Json.str.inj h1
        rw [hnq] at hia
        simp only [pyIAdd, pyStr, Option.some.injEq] at hia
        rw [← h3, ← hia, hf0]
      | arr xs =>
        dsimp only at h1
        rw [ht] at h1
        simp only [pyIAdd, Option.some.injEq] at hia
        rw [← hia] at h1
        exact absurd h1 (by simp)
      | null => simp [pyIAdd] at hia
      | bool b => simp [pyIAdd] at hia
      | num m => simp [pyIAdd] at hia
      | numF lx => simp [pyIAdd] at hia
      | obj kvs => simp [pyIAdd] at hia
    · exact absurd h (by simp)
  · rename_i hb
    simp only [Option.some.injEq, Prod.mk.injEq] at h
    obtain ⟨h1, h2, h3⟩ := h
    have hnq : nq = Json.str nn := h2.trans hn
    have hnn : nn = "" := by
      rw [hnq] at hb
      simpa [pyTruthy] using hb
    rw [hnn, if_neg (by simp)]
    exact h3.symm.trans (h1.trans ht)

/-- Inversion: a 200 response from `check_answer` comes from the success
branch, and its body lists the four grading fields built by
`assembleAnswer`. -/
theorem check_answer_200 (cfg : Config) (data : Option (List (String × Json)))
    (grading : GradingOutcome) (tts : TtsOutcome)
    (h : (check_answer cfg data grading tts).1.status = 200) :
    ∃ fb nq t n ct, assembleAnswer fb nq = some (t, n, ct) ∧
      (check_answer cfg data grading tts).1.body =
        [("text", t), ("next_question", n), ("combined_text", ct),
         ("audio_base64", audioJson tts)] := by
  unfold check_answer at h ⊢
  by_cases hck : keyOk cfg.claude_key = false
  · rw [if_pos hck] at h
    simp at h
  rw [if_neg hck] at h ⊢
  by_cases hok : keyOk cfg.openai_key = false
  · rw [if_pos hok] at h
    simp at h
  rw [if_neg hok] at h ⊢
  cases data with
  | none => simp at h
  | some kvs =>
    try dsimp only at h ⊢
    by_cases hemp : kvs.isEmpty
    · rw [if_pos hemp] at h
      simp at h
    rw [if_neg hemp] at h ⊢
    try dsimp only at h ⊢
    by_cases hval : truthyOpt (dictGet kvs "question") = false ∨
        truthyOpt (dictGet kvs "user_answer") = false
    · rw [if_pos hval] at h
      simp at h
    rw [if_neg hval] at h ⊢
    cases grading with
    | exc msg => simp at h
    | resp st body text =>
      try dsimp only at h ⊢
      by_cases hst : st ≠ 200
      · rw [if_pos hst] at h
        simp at h
        exact absurd h hst
      rw [if_neg hst] at h ⊢
      cases text with
      | none => simp at h
      | some rt =>
        try dsimp only at h ⊢
        cases hpa : parseAnswer rt with
        | error e =>
          try rw [hpa] at h
          simp at h
        | ok p =>
          obtain ⟨fb, nq⟩ := p
          try rw [hpa] at h
          try dsimp only at h ⊢
          cases has : assembleAnswer fb nq with
          | none =>
            try rw [has] at h
            simp at h
          | some trip =>
            obtain ⟨tv, nv, ct⟩ := trip
            try rw [has]
            exact ⟨fb, nq, tv, nv, ct, has, rfl⟩

/-- Inversion: a 200 response from `check_preposition` carries the
sanitized parser outputs and the combined text built from them. -/
theorem check_preposition_200 (cfg : Config) (data : Option (List (String × Json)))
    (grading : GradingOutcome) (tts : TtsOutcome)
    (h : (check_preposition cfg data grading tts).1.status = 200) :
    ∃ rt : String,
      (check_preposition cfg data grading tts).1.body =
        [("text", Json.str (parsePreposition rt).1),
         ("next_question", Json.str (parsePreposition rt).2),
         ("combined_text", Json.str
           (if (parsePreposition rt).2 ≠ "" then
             (parsePreposition rt).1 ++ (". Next question: " ++ (parsePreposition rt).2)
           else (parsePreposition rt).1)),
         ("audio_base64", audioJson tts)] := by
  unfold check_preposition at h ⊢
  by_cases hk : (keyOk cfg.claude_key && keyOk cfg.openai_key) = false
  · rw [if_pos hk] at h
    simp at h
  rw [if_neg hk] at h ⊢
  try dsimp only at h ⊢
  cases hnp : npValue (data.getD []) with
  | str s =>
    try rw [hnp] at h
    try dsimp only at h ⊢
    by_cases hval : truthyOpt (dictGet (data.getD []) "question") = false ∨
        truthyOpt (dictGet (data.getD []) "user_answer") = false
    · rw [if_pos hval] at h
      simp at h
    rw [if_neg hval] at h ⊢
    cases grading with
    | exc msg => simp at h
    | resp st body text =>
      try dsimp only at h ⊢
      by_cases hst : st ≠ 200
      · rw [if_pos hst] at h
        simp at h
        exact absurd h hst
      rw [if_neg hst] at h ⊢
      cases text with
      | none => simp at h
      | some rt =>
        exact ⟨rt, rfl⟩
  | null =>
    try rw [hnp] at h
    simp at h
  | bool b =>
    try rw [hnp] at h
    simp at h
  | num n =>
    try rw [hnp] at h
    simp at h
  | numF lx =>
    try rw [hnp] at h
    simp at h
  | arr xs =>
    try rw [hnp] at h
    simp at h
  | obj kvs =>
    try rw [hnp] at h
    simp at h

/-- A request body with a truthy field is not the empty dict. -/
theorem truthy_ne_nil (kvs : List (String × Json)) (k : String)
    (h : truthyOpt (dictGet kvs k) = true) : kvs ≠ [] := by
  intro he
  subst he
  simp [dictGet, truthyOpt] at h

/-! Claim theorems. -/

/-- C1, counterexample: the claimed five-step cascade (`specCascade`,
stated from the spec's words) yields `("OK", "")` on a fenced JSON
reply, but `check_answer`'s actual parsing (`parseAnswer`, a bare
`json.loads` with whole-text fallback) returns the entire raw reply as
feedback, so the two grading endpoints do not share the claimed
parser. -/
theorem C1_counterexample :
    specCascade fencedReply = ("OK", "") ∧
    parseAnswer fencedReply = Except.ok (Json.str fencedReply, Json.str "") ∧
    fencedReply ≠ "OK" :=
  ⟨rfl, rfl, by decide⟩

/-- C1, amended: only `check_preposition` applies the ordered
first-match-wins cascade (fence strip; direct JSON parse; JSON parse of
the first-`\x7b`-to-last-`\x7d` span with whole-text fallback on its
failure; line-based key extraction only when no such span exists;
whole-text fallback; then quote-stripping), and it never raises.
`check_answer` instead applies only a direct JSON parse, falling back
to the whole reply as feedback on a JSON syntax error, and raises
(yielding a 500) when the reply is valid JSON that is not an object. -/
theorem C1_parse_cascades (t : String) :
    parsePreposition t = prepDescribed t ∧
    (∀ kvs, jsonLoads t = some (Json.obj kvs) →
      parseAnswer t = Except.ok ((dictGet kvs "feedback").getD (Json.str ""),
        (dictGet kvs "next_question").getD (Json.str ""))) ∧
    (jsonLoads t = none → parseAnswer t = Except.ok (Json.str t, Json.str "")) ∧
    (∀ v, jsonLoads t = some v → (∀ kvs, v ≠ Json.obj kvs) →
      parseAnswer t = Except.error ()) := by
  refine ⟨prep_eq_described t, ?_, ?_, ?_⟩
  · intro kvs hk
    unfold parseAnswer
    rw [hk]
  · intro hk
    unfold parseAnswer
    rw [hk]
  · intro v hv hne
    unfold parseAnswer
    rw [hv]
    cases v with
    | obj kvs => exact absurd rfl (hne kvs)
    | null => rfl
    | bool b => rfl
    | num n => rfl
    | numF lx => rfl
    | str s => rfl
    | arr xs => rfl

/-- Witness for `C1_parse_cascades` at a concrete prose reply. -/
theorem C1_parse_cascades_witness :
    parsePreposition proseReply = prepDescribed proseReply ∧
    parseAnswer proseReply = Except.ok (Json.str proseReply, Json.str "") :=
  ⟨(C1_parse_cascades proseReply).1, (C1_parse_cascades proseReply).2.2.1 (by rfl)⟩

/-- C3, counterexample: on the fenced reply the claim asserts each
endpoint extracts feedback "OK", but `check_answer`'s 200 response
carries the whole fenced text as its `text` field. -/
theorem C3_counterexample :
    dictGet (check_answer cfgBoth (some bodyValid)
      (GradingOutcome.resp 200 "" (some fencedReply)) none).1.body "text" =
      some (Json.str fencedReply) ∧
    fencedReply ≠ "OK" :=
  ⟨rfl, by decide⟩

/-- C3, amended: on a fenced JSON reply `check_preposition`'s parsing
yields feedback "OK" and empty next question (fences are stripped
before JSON parsing), while `check_answer`'s parsing yields the whole
raw reply as feedback with empty next question. -/
theorem C3_amended :
    parsePreposition fencedReply = ("OK", "") ∧
    parseAnswer fencedReply = Except.ok (Json.str fencedReply, Json.str "") :=
  ⟨rfl, rfl⟩

/-- C2, counterexample: a grading reply with `next_question` equal to
the JSON number `0` produces a 200 `check_answer` response in which
`combined_text` equals the feedback even though `next_question` is not
the empty string (`0` is falsy, so the suffix is skipped), refuting the
"exactly when" of the claim for responses as produced. -/
theorem C2_counterexample :
    (check_answer cfgBoth (some bodyValid)
      (GradingOutcome.resp 200 "" (some zeroNqReply)) none).1.status = 200 ∧
    dictGet (check_answer cfgBoth (some bodyValid)
      (GradingOutcome.resp 200 "" (some zeroNqReply)) none).1.body "combined_text" =
      dictGet (check_answer cfgBoth (some bodyValid)
        (GradingOutcome.resp 200 "" (some zeroNqReply)) none).1.body "text" ∧
    dictGet (check_answer cfgBoth (some bodyValid)
      (GradingOutcome.resp 200 "" (some zeroNqReply)) none).1.body "next_question" =
      some (Json.num 0) ∧
    (∀ s : String, Json.num 0 ≠ Json.str s) :=
  ⟨rfl, rfl, rfl, fun _ h => Json.noConfusion h⟩

/-- C2, amended: for every 200 response of either grading endpoint
whose `text` and `next_question` fields are strings, `combined_text`
equals the feedback exactly when `next_question` is empty, and is the
feedback followed by ". Next question: " and the next question
otherwise (the preposition endpoint's fields are always strings; the
tense endpoint's can be non-strings, as the counterexample shows). -/
theorem C2_combined_text
    (cfg : Config) (data : Option (List (String × Json)))
    (grading : GradingOutcome) (tts : TtsOutcome) (f n : String) :
    ((check_answer cfg data grading tts).1.status = 200 →
      dictGet (check_answer cfg data grading tts).1.body "text" = some (Json.str f) →
      dictGet (check_answer cfg data grading tts).1.body "next_question" =
        some (Json.str n) →
      ((dictGet (check_answer cfg data grading tts).1.body "combined_text" =
          some (Json.str f) ↔ n = "") ∧
       (n ≠ "" → dictGet (check_answer cfg data grading tts).1.body "combined_text" =
         some (Json.str (f ++ (". Next question: " ++ n)))))) ∧
    ((check_preposition cfg data grading tts).1.status = 200 →
      dictGet (check_preposition cfg data grading tts).1.body "text" =
        some (Json.str f) →
      dictGet (check_preposition cfg data grading tts).1.body "next_question" =
        some (Json.str n) →
      ((dictGet (check_preposition cfg data grading tts).1.body "combined_text" =
          some (Json.str f) ↔ n = "") ∧
       (n ≠ "" → dictGet (check_preposition cfg data grading tts).1.body "combined_text" =
         some (Json.str (f ++ (". Next question: " ++ n)))))) := by
  constructor
  · intro h200 hf hn
    obtain ⟨fb, nq, tv, nv, ct, has, hbody⟩ := check_answer_200 cfg data grading tts h200
    rw [hbody] at hf hn ⊢
    simp [dictGet] at hf hn ⊢
    have hct := assembleAnswer_str_fields fb nq tv nv ct f n has hf hn
    rw [hct]
    by_cases h0 : n = ""
    · subst h0
      simp
    · rw [if_pos h0]
      refine ⟨⟨fun hEq => ?_, fun h1 => absurd h1 h0⟩, fun _ => rfl⟩
      injection hEq with h2
      exact absurd h2 (combined_ne_feedback f n)
  · intro h200 hf hn
    obtain ⟨rt, hbody⟩ := check_preposition_200 cfg data grading tts h200
    rw [hbody] at hf hn ⊢
    simp [dictGet] at hf hn ⊢
    rw [hf, hn]
    by_cases h0 : n = ""
    · subst h0
      simp
    · rw [if_neg h0]
      refine ⟨⟨fun hEq => ?_, fun h1 => absurd h1 h0⟩, fun _ => rfl⟩
      exact absurd hEq (combined_ne_feedback f n)

/-- Witness for `C2_combined_text` at a concrete strict-JSON reply with
a non-empty next question. -/
theorem C2_combined_text_witness :
    (check_answer cfgBoth (some bodyValid)
      (GradingOutcome.resp 200 "" (some okReply)) (some "AUDIO")).1.status = 200 ∧
    dictGet (check_answer cfgBoth (some bodyValid)
      (GradingOutcome.resp 200 "" (some okReply)) (some "AUDIO")).1.body "combined_text" =
      some (Json.str ("Good job!" ++ (". Next question: " ++ "Use travel in past simple."))) := by
  refine ⟨rfl, ?_⟩
  have h := (C2_combined_text cfgBoth (some bodyValid)
    (GradingOutcome.resp 200 "" (some okReply)) (some "AUDIO")
    "Good job!" "Use travel in past simple.").1 (by rfl) (by rfl) (by rfl)
  exact h.2 (by decide)

/-- C4, counterexample: for a valid grading request made while the
speech-service credential is absent, the claim asserts a 200 response
with null audio, but `check_answer` rejects the request upfront with
503 (line 130-135 of main.py). -/
theorem C4_counterexample :
    (check_answer cfgNoSpeech (some bodyValid)
      (GradingOutcome.resp 200 "" (some okReply)) none).1.status = 503 ∧
    (503 : Nat) ≠ 200 :=
  ⟨rfl, by decide⟩

/-- C4, amended: with both credentials present, a speech-synthesis
failure at request time never fails the request: the grading endpoints
still return 200 with `audio_base64` null and the same grading fields a
successful synthesis would produce.  (When the speech credential is
absent, the endpoints instead reject the request upfront with 503.) -/
theorem C4_audio_nonfatal (cfg : Config) (kvs : List (String × Json))
    (b rt a : String) (fb nq t n ct : Json)
    (hck : keyOk cfg.claude_key = true) (hok : keyOk cfg.openai_key = true)
    (hq : truthyOpt (dictGet kvs "question") = true)
    (hua : truthyOpt (dictGet kvs "user_answer") = true)
    (hpa : parseAnswer rt = Except.ok (fb, nq))
    (has : assembleAnswer fb nq = some (t, n, ct))
    (hnp : npForm kvs = true) :
    check_answer cfg (some kvs) (GradingOutcome.resp 200 b (some rt)) none =
      (⟨200, [("text", t), ("next_question", n), ("combined_text", ct),
        ("audio_base64", Json.null)]⟩, [ExtCall.gradingCall, ExtCall.speechCall]) ∧
    (check_answer cfg (some kvs) (GradingOutcome.resp 200 b (some rt)) (some a)).1.body =
      [("text", t), ("next_question", n), ("combined_text", ct),
        ("audio_base64", Json.str a)] ∧
    check_preposition cfg (some kvs) (GradingOutcome.resp 200 b (some rt)) none =
      (⟨200, [("text", Json.str (parsePreposition rt).1),
        ("next_question", Json.str (parsePreposition rt).2),
        ("combined_text", Json.str (if (parsePreposition rt).2 ≠ "" then
          (parsePreposition rt).1 ++ (". Next question: " ++ (parsePreposition rt).2)
          else (parsePreposition rt).1)),
        ("audio_base64", Json.null)]⟩, [ExtCall.gradingCall, ExtCall.speechCall]) := by
  cases kvs with
  | nil => simp [dictGet, truthyOpt] at hq
  | cons p l =>
    cases hv : npValue (p :: l) with
    | str s =>
      refine ⟨?_, ?_, ?_⟩ <;>
        simp [check_answer, check_preposition, hck, hok, hq, hua, hpa, has, hv, audioJson]
    | null => exact absurd hnp (by simp [npForm, hv])
    | bool b2 => exact absurd hnp (by simp [npForm, hv])
    | num n2 => exact absurd hnp (by simp [npForm, hv])
    | numF lx => exact absurd hnp (by simp [npForm, hv])
    | arr xs => exact absurd hnp (by simp [npForm, hv])
    | obj kvs2 => exact absurd hnp (by simp [npForm, hv])

/-- Witness for `C4_audio_nonfatal` at a concrete strict-JSON reply. -/
theorem C4_audio_nonfatal_witness :
    check_answer cfgBoth (some bodyValid)
      (GradingOutcome.resp 200 "" (some okReply)) none =
      (⟨200, [("text", Json.str "Good job!"),
        ("next_question", Json.str "Use travel in past simple."),
        ("combined_text",
          Json.str ("Good job!" ++ (". Next question: " ++ "Use travel in past simple."))),
        ("audio_base64", Json.null)]⟩, [ExtCall.gradingCall, ExtCall.speechCall]) :=
  (C4_audio_nonfatal cfgBoth bodyValid "" okReply "AUDIO"
    (Json.str "Good job!") (Json.str "Use travel in past simple.")
    (Json.str "Good job!") (Json.str "Use travel in past simple.")
    (Json.str ("Good job!" ++ (". Next question: " ++ "Use travel in past simple.")))
    rfl rfl rfl rfl rfl rfl rfl).1

/-- Shared helper: with both credentials present, a request whose
`question` or `user_answer` is falsy is rejected with 400 and no
outbound call, except that `check_preposition` raises (500, still no
call) when `next_preposition` is a truthy non-string. -/
theorem invalid_request (cfg : Config) (kvs : List (String × Json))
    (grading : GradingOutcome) (tts : TtsOutcome)
    (hck : keyOk cfg.claude_key = true) (hok : keyOk cfg.openai_key = true)
    (hval : truthyOpt (dictGet kvs "question") = false ∨
      truthyOpt (dictGet kvs "user_answer") = false) :
    ((check_answer cfg (some kvs) grading tts).1.status = 400 ∧
     (check_answer cfg (some kvs) grading tts).2 = []) ∧
    (npForm kvs = true →
      check_preposition cfg (some kvs) grading tts =
        (⟨400, [("error", Json.str "Both question and user_answer are required")]⟩, [])) ∧
    (npForm kvs = false →
      (check_preposition cfg (some kvs) grading tts).1.status = 500 ∧
      (check_preposition cfg (some kvs) grading tts).2 = []) := by
  refine ⟨?_, ?_, ?_⟩
  · by_cases hemp : kvs.isEmpty
    · simp [check_answer, hck, hok, hemp]
    · cases hval with
      | inl h => simp [check_answer, hck, hok, hemp, h]
      | inr h => simp [check_answer, hck, hok, hemp, h]
  · intro hnp
    cases hv : npValue kvs with
    | str s =>
      cases hval with
      | inl h => simp [check_preposition, hck, hok, hv, h]
      | inr h => simp [check_preposition, hck, hok, hv, h]
    | null => exact absurd hnp (by simp [npForm, hv])
    | bool b2 => exact absurd hnp (by simp [npForm, hv])
    | num n2 => exact absurd hnp (by simp [npForm, hv])
    | numF lx => exact absurd hnp (by simp [npForm, hv])
    | arr xs => exact absurd hnp (by simp [npForm, hv])
    | obj kvs2 => exact absurd hnp (by simp [npForm, hv])
  · intro hnp
    cases hv : npValue kvs with
    | str s => exact absurd hnp (by simp [npForm, hv])
    | null => constructor <;> simp [check_preposition, hck, hok, hv]
    | bool b2 => constructor <;> simp [check_preposition, hck, hok, hv]
    | num n2 => constructor <;> simp [check_preposition, hck, hok, hv]
    | numF lx => constructor <;> simp [check_preposition, hck, hok, hv]
    | arr xs => constructor <;> simp [check_preposition, hck, hok, hv]
    | obj kvs2 => constructor <;> simp [check_preposition, hck, hok, hv]

/-- C5, counterexample: a request to `check_preposition` with
`question` missing but a truthy non-string `next_preposition` is
answered 500 (the line-292 `.strip()` raises before validation), not
the claimed 400; no external call is made. -/
theorem C5_counterexample :
    dictGet bodyNoQuestion "question" = none ∧
    (check_preposition cfgBoth (some bodyNoQuestion)
      (GradingOutcome.exc "unused") none).1.status = 500 ∧
    (check_preposition cfgBoth (some bodyNoQuestion)
      (GradingOutcome.exc "unused") none).2 = [] ∧
    (500 : Nat) ≠ 400 :=
  ⟨rfl, rfl, rfl, by decide⟩

/-- C5, amended: with both credentials present, a request whose
`question` or `user_answer` is missing is answered 400 with no external
call — except that `check_preposition` answers 500 (still without any
external call) when the body's `next_preposition` is a truthy
non-string, because that field is processed before validation. -/
theorem C5_missing_fields (cfg : Config) (kvs : List (String × Json))
    (grading : GradingOutcome) (tts : TtsOutcome)
    (hck : keyOk cfg.claude_key = true) (hok : keyOk cfg.openai_key = true)
    (hmiss : dictGet kvs "question" = none ∨ dictGet kvs "user_answer" = none) :
    ((check_answer cfg (some kvs) grading tts).1.status = 400 ∧
     (check_answer cfg (some kvs) grading tts).2 = []) ∧
    (npForm kvs = true →
      check_preposition cfg (some kvs) grading tts =
        (⟨400, [("error", Json.str "Both question and user_answer are required")]⟩, [])) ∧
    (npForm kvs = false →
      (check_preposition cfg (some kvs) grading tts).1.status = 500 ∧
      (check_preposition cfg (some kvs) grading tts).2 = []) := by
  apply invalid_request cfg kvs grading tts hck hok
  cases hmiss with
  | inl h => exact Or.inl (by rw [h]; rfl)
  | inr h => exact Or.inr (by rw [h]; rfl)

/-- Witness for `C5_missing_fields`: a body with only `user_answer`. -/
theorem C5_missing_fields_witness :
    ((check_answer cfgBoth (some bodyOnlyAnswer)
      (GradingOutcome.exc "unused") none).1.status = 400 ∧
     (check_answer cfgBoth (some bodyOnlyAnswer)
      (GradingOutcome.exc "unused") none).2 = []) ∧
    check_preposition cfgBoth (some bodyOnlyAnswer) (GradingOutcome.exc "unused") none =
      (⟨400, [("error", Json.str "Both question and user_answer are required")]⟩, []) :=
  ⟨(C5_missing_fields cfgBoth bodyOnlyAnswer (GradingOutcome.exc "unused") none
      rfl rfl (Or.inl rfl)).1,
   (C5_missing_fields cfgBoth bodyOnlyAnswer (GradingOutcome.exc "unused") none
      rfl rfl (Or.inl rfl)).2.1 rfl⟩

/-- C6: a missing grading credential makes both endpoints answer 503
with an `error` key, for every request body and before any outbound
call. -/
theorem C6_no_credential (cfg : Config) (data : Option (List (String × Json)))
    (grading : GradingOutcome) (tts : TtsOutcome)
    (hck : keyOk cfg.claude_key = false) :
    check_answer cfg data grading tts =
      (⟨503, [("error", Json.str "Service not configured"),
        ("details", Json.str "Claude API key not found. Please contact administrator.")]⟩,
        []) ∧
    check_preposition cfg data grading tts =
      (⟨503, [("error", Json.str "Service not configured")]⟩, []) := by
  constructor
  · simp [check_answer, hck]
  · simp [check_preposition, hck]

/-- Witness for `C6_no_credential` with no credentials and a valid
body. -/
theorem C6_no_credential_witness :
    check_answer cfgNone (some bodyValid) (GradingOutcome.exc "unused") none =
      (⟨503, [("error", Json.str "Service not configured"),
        ("details", Json.str "Claude API key not found. Please contact administrator.")]⟩,
        []) ∧
    check_preposition cfgNone (some bodyValid) (GradingOutcome.exc "unused") none =
      (⟨503, [("error", Json.str "Service not configured")]⟩, []) :=
  C6_no_credential cfgNone (some bodyValid) (GradingOutcome.exc "unused") none rfl

/-- C7: when the grading service returns a non-200 status, each
endpoint's response carries exactly that status, with the upstream body
verbatim under `details`, after exactly the one grading call. -/
theorem C7_upstream_error (cfg : Config) (kvs : List (String × Json))
    (st : Nat) (b : String) (txt : Option String) (tts : TtsOutcome)
    (hck : keyOk cfg.claude_key = true) (hok : keyOk cfg.openai_key = true)
    (hq : truthyOpt (dictGet kvs "question") = true)
    (hua : truthyOpt (dictGet kvs "user_answer") = true)
    (hnp : npForm kvs = true)
    (hst : st ≠ 200) :
    check_answer cfg (some kvs) (GradingOutcome.resp st b txt) tts =
      (⟨st, [("error", Json.str ("Claude API error: " ++ toString st)),
        ("details", Json.str b)]⟩, [ExtCall.gradingCall]) ∧
    check_preposition cfg (some kvs) (GradingOutcome.resp st b txt) tts =
      (⟨st, [("error", Json.str "Claude API error"),
        ("details", Json.str b)]⟩, [ExtCall.gradingCall]) := by
  cases kvs with
  | nil => simp [dictGet, truthyOpt] at hq
  | cons p l =>
    cases hv : npValue (p :: l) with
    | str s =>
      constructor <;>
        simp [check_answer, check_preposition, hck, hok, hq, hua, hv, hst]
    | null => exact absurd hnp (by simp [npForm, hv])
    | bool b2 => exact absurd hnp (by simp [npForm, hv])
    | num n2 => exact absurd hnp (by simp [npForm, hv])
    | numF lx => exact absurd hnp (by simp [npForm, hv])
    | arr xs => exact absurd hnp (by simp [npForm, hv])
    | obj kvs2 => exact absurd hnp (by simp [npForm, hv])

/-- Witness for `C7_upstream_error` at upstream status 429. -/
theorem C7_upstream_error_witness :
    check_answer cfgBoth (some bodyValid)
      (GradingOutcome.resp 429 "rate limited" none) none =
      (⟨429, [("error", Json.str ("Claude API error: " ++ toString (429 : Nat))),
        ("details", Json.str "rate limited")]⟩, [ExtCall.gradingCall]) ∧
    check_preposition cfgBoth (some bodyValid)
      (GradingOutcome.resp 429 "rate limited" none) none =
      (⟨429, [("error", Json.str "Claude API error"),
        ("details", Json.str "rate limited")]⟩, [ExtCall.gradingCall]) :=
  C7_upstream_error cfgBoth bodyValid 429 "rate limited" none none
    rfl rfl rfl rfl rfl (by decide)

/-- C8, counterexample: a reply whose feedback value carries symmetric
surrounding double quotes reaches `check_answer`'s 200 response
unchanged — the quotes the claim says are stripped are still there. -/
theorem C8_counterexample :
    dictGet (check_answer cfgBoth (some bodyValid)
      (GradingOutcome.resp 200 "" (some quotedReply)) none).1.body "text" =
      some (Json.str "\"Hello\"") ∧
    pySanitize "\"Hello\"" = "Hello" ∧
    "\"Hello\"" ≠ "Hello" :=
  ⟨rfl, rfl, by decide⟩

/-- C8, amended: only `check_preposition` strips whitespace and one
symmetric pair of surrounding quotes (via `_sanitize`) from the
extracted `feedback` and `next_question` before they are used;
`check_answer` uses the extracted values unmodified. -/
theorem C8_sanitize_only_preposition (t : String) :
    parsePreposition t =
      (pySanitize (parsePrepRaw t).1, pySanitize (parsePrepRaw t).2) ∧
    (∀ kvs f n, jsonLoads t = some (Json.obj kvs) →
      dictGet kvs "feedback" = some (Json.str f) →
      dictGet kvs "next_question" = some (Json.str n) →
      parseAnswer t = Except.ok (Json.str f, Json.str n)) := by
  refine ⟨rfl, ?_⟩
  intro kvs f n hk hf hn
  unfold parseAnswer
  rw [hk]
  dsimp only
  rw [hf, hn]
  rfl

/-- Witness for `C8_sanitize_only_preposition` on the quoted reply. -/
theorem C8_sanitize_only_preposition_witness :
    parseAnswer quotedReply = Except.ok (Json.str "\"Hello\"", Json.str "") ∧
    parsePreposition quotedReply = ("Hello", "") :=
  ⟨(C8_sanitize_only_preposition quotedReply).2 _ "\"Hello\"" "" rfl rfl rfl,
   ((C8_sanitize_only_preposition quotedReply).1).trans (by rfl)⟩

/-- C9: `GET /health` always answers 200 and `api_configured` reflects
exactly the grading credential; when it is set but the speech
credential is absent, `api_configured` is true even though both grading
endpoints answer 503 for every request. -/
theorem C9_health (cfg : Config) :
    health_check cfg = ⟨200, [("status", Json.str "OK"),
      ("message", Json.str "Grammar app Python backend is running"),
      ("api_configured", Json.bool (keyOk cfg.claude_key))]⟩ ∧
    (keyOk cfg.claude_key = true → keyOk cfg.openai_key = false →
      ∀ data grading tts,
        (check_answer cfg data grading tts).1.status = 503 ∧
        (check_preposition cfg data grading tts).1.status = 503) := by
  refine ⟨rfl, fun hck hok data grading tts => ?_⟩
  constructor
  · simp [check_answer, hck, hok]
  · simp [check_preposition, hck, hok]

/-- Witness for `C9_health` at a configuration with only the grading
credential. -/
theorem C9_health_witness :
    health_check cfgNoSpeech = ⟨200, [("status", Json.str "OK"),
      ("message", Json.str "Grammar app Python backend is running"),
      ("api_configured", Json.bool true)]⟩ ∧
    (check_answer cfgNoSpeech (some bodyValid)
      (GradingOutcome.exc "unused") none).1.status = 503 ∧
    (check_preposition cfgNoSpeech (some bodyValid)
      (GradingOutcome.exc "unused") none).1.status = 503 :=
  ⟨((C9_health cfgNoSpeech).1).trans (by rfl),
   ((C9_health cfgNoSpeech).2 rfl rfl (some bodyValid) (GradingOutcome.exc "unused") none).1,
   ((C9_health cfgNoSpeech).2 rfl rfl (some bodyValid) (GradingOutcome.exc "unused") none).2⟩

/-- C10, counterexample: a `check_preposition` request with `question`
present but empty and a truthy non-string `next_preposition` is
answered 500, not the claimed 400 (no external call is made). -/
theorem C10_counterexample :
    dictGet bodyEmptyQuestion "question" = some (Json.str "") ∧
    (check_preposition cfgBoth (some bodyEmptyQuestion)
      (GradingOutcome.exc "unused") none).1.status = 500 ∧
    (check_preposition cfgBoth (some bodyEmptyQuestion)
      (GradingOutcome.exc "unused") none).2 = [] ∧
    (500 : Nat) ≠ 400 :=
  ⟨rfl, rfl, rfl, by decide⟩

/-- C10, amended: with both credentials present, a request whose
`question` or `user_answer` is present but empty is treated like a
missing field: 400 and no external call — except that
`check_preposition` answers 500 (still without any external call) when
the body's `next_preposition` is a truthy non-string. -/
theorem C10_empty_fields (cfg : Config) (kvs : List (String × Json))
    (grading : GradingOutcome) (tts : TtsOutcome)
    (hck : keyOk cfg.claude_key = true) (hok : keyOk cfg.openai_key = true)
    (hemp : dictGet kvs "question" = some (Json.str "") ∨
      dictGet kvs "user_answer" = some (Json.str "")) :
    ((check_answer cfg (some kvs) grading tts).1.status = 400 ∧
     (check_answer cfg (some kvs) grading tts).2 = []) ∧
    (npForm kvs = true →
      check_preposition cfg (some kvs) grading tts =
        (⟨400, [("error", Json.str "Both question and user_answer are required")]⟩, [])) ∧
    (npForm kvs = false →
      (check_preposition cfg (some kvs) grading tts).1.status = 500 ∧
      (check_preposition cfg (some kvs) grading tts).2 = []) := by
  apply invalid_request cfg kvs grading tts hck hok
  cases hemp with
  | inl h => exact Or.inl (by rw [h]; rfl)
  | inr h => exact Or.inr (by rw [h]; rfl)

/-- Witness for `C10_empty_fields`: an empty `user_answer`. -/
theorem C10_empty_fields_witness :
    ((check_answer cfgBoth (some bodyEmptyAnswer)
      (GradingOutcome.exc "unused") none).1.status = 400 ∧
     (check_answer cfgBoth (some bodyEmptyAnswer)
      (GradingOutcome.exc "unused") none).2 = []) ∧
    check_preposition cfgBoth (some bodyEmptyAnswer) (GradingOutcome.exc "unused") none =
      (⟨400, [("error", Json.str "Both question and user_answer are required")]⟩, []) :=
  ⟨(C10_empty_fields cfgBoth bodyEmptyAnswer (GradingOutcome.exc "unused") none
      rfl rfl (Or.inr rfl)).1,
   (C10_empty_fields cfgBoth bodyEmptyAnswer (GradingOutcome.exc "unused") none
      rfl rfl (Or.inr rfl)).2.1 rfl⟩

end InterviewApp
